import Mathlib

/-!
Verification of the condition-scoring engine of swim.today
(`lib/swim_score.py` together with the threshold tables of
`lib/constants.py`).

Modelling conventions:
* Python floats are modelled as `ℚ`; every threshold and every input in the
  claims is exactly representable, so strict comparisons agree with the
  float semantics of the source. A decimal constant `a.b` of the source is
  written `mkRat (10*a+b) 10` (the same rational) because the scientific
  literal coercion on `ℚ` is irreducible and would block evaluation.
* A Python value that may be `None` is an `Option`.
* `float("inf")` upper bounds are modelled as `none` in the threshold lists.
* Python `int(x)` truncates toward zero; `py_int` below does the same on `ℚ`.
* `SAFETY_FACTORS` is a Python `set`; its iteration order is modelled as the
  order of the set literal in `constants.py`
  (wave_height, wind_speed, precipitation, weather_code).
-/

inductive Verdict where
  | yes
  | maybe
  | no
deriving DecidableEq, Repr, Fintype

/-- A single classified factor, mirroring the per-factor dicts built by
`evaluate_conditions`: `{value, unit, label, verdict, bar}`. -/
structure Factor where
  value : Option ℚ
  unit : String
  label : String
  verdict : Option Verdict
  bar : ℤ
deriving DecidableEq, Repr

/-- The marine reading fields used by scoring (`marine.get(...)`). -/
structure Marine where
  sea_surface_temp : Option ℚ
  wave_height : Option ℚ
deriving DecidableEq, Repr

/-- The weather reading fields used by scoring (`weather.get(...)`). -/
structure Weather where
  wind_speed : Option ℚ
  uv_index : Option ℚ
  precipitation : Option ℚ
  weather_code : Option ℕ
deriving DecidableEq, Repr

/-- The six factors keyed by the dict insertion order of
`evaluate_conditions`. -/
structure Factors where
  water_temp : Factor
  wave_height : Factor
  wind_speed : Factor
  uv_index : Factor
  precipitation : Factor
  weather_code : Factor
deriving DecidableEq, Repr

/-- The dict returned by `evaluate_conditions`. -/
structure EvalResult where
  verdict : Verdict
  factors : Factors
  tips : List String
  summary : String
deriving DecidableEq, Repr

/-- A threshold table entry `(upper_bound, label, verdict)`;
`none` as the bound stands for `float("inf")`. -/
abbrev Threshold : Type := Option ℚ × String × Option Verdict

/-- `WATER_TEMP_LABELS` from `constants.py`. -/
def WATER_TEMP_LABELS : List Threshold :=
  [(some 10, "Freezing", none),
   (some 15, "Very Cold", none),
   (some 18, "Cold", none),
   (some 20, "Cool", none),
   (some 24, "Mild", none),
   (some 27, "Comfortable", none),
   (some 30, "Warm", none),
   (some 35, "Very Warm", none),
   (none, "Hot", none)]

/-- `WAVE_HEIGHT_LABELS` from `constants.py`. -/
def WAVE_HEIGHT_LABELS : List Threshold :=
  [(some (mkRat 3 10), "Glassy", some Verdict.yes),
   (some (mkRat 6 10), "Calm", some Verdict.yes),
   (some (mkRat 10 10), "Slight", some Verdict.yes),
   (some (mkRat 15 10), "Moderate", some Verdict.maybe),
   (some (mkRat 20 10), "Rough", some Verdict.maybe),
   (some (mkRat 30 10), "Very Rough", some Verdict.no),
   (none, "Dangerous", some Verdict.no)]

/-- `WIND_SPEED_LABELS` from `constants.py`. -/
def WIND_SPEED_LABELS : List Threshold :=
  [(some 10, "Calm", some Verdict.yes),
   (some 20, "Light Breeze", some Verdict.yes),
   (some 30, "Moderate", some Verdict.maybe),
   (some 40, "Strong", some Verdict.maybe),
   (some 50, "Very Strong", some Verdict.no),
   (none, "Extreme", some Verdict.no)]

/-- `UV_INDEX_LABELS` from `constants.py`. -/
def UV_INDEX_LABELS : List Threshold :=
  [(some 2, "Low", none),
   (some 5, "Moderate", none),
   (some 7, "High", none),
   (some 10, "Very High", none),
   (none, "Extreme", none)]

/-- `PRECIP_LABELS` from `constants.py`. -/
def PRECIP_LABELS : List Threshold :=
  [(some (mkRat 1 10), "None", some Verdict.yes),
   (some (mkRat 20 10), "Light Rain", some Verdict.yes),
   (some (mkRat 50 10), "Moderate Rain", some Verdict.maybe),
   (some (mkRat 100 10), "Heavy Rain", some Verdict.no),
   (none, "Torrential", some Verdict.no)]

/-- The keys of `DANGEROUS_WEATHER_CODES` from `constants.py`. -/
def DANGEROUS_WEATHER_CODES : List ℕ := [95, 96, 99]

/-- The keys of `WARNING_WEATHER_CODES` from `constants.py`. -/
def WARNING_WEATHER_CODES : List ℕ :=
  [51, 53, 55, 61, 63, 65, 66, 67, 71, 73, 75, 77, 80, 81, 82, 85, 86]

/-- `WMO_WEATHER_DESCRIPTIONS.get(code, "Unknown")` from `constants.py`. -/
def wmo_description (code : ℕ) : String :=
  if code = 0 then "Clear sky"
  else if code = 1 then "Mainly clear"
  else if code = 2 then "Partly cloudy"
  else if code = 3 then "Overcast"
  else if code = 45 then "Foggy"
  else if code = 48 then "Depositing rime fog"
  else if code = 51 then "Light drizzle"
  else if code = 53 then "Moderate drizzle"
  else if code = 55 then "Dense drizzle"
  else if code = 56 then "Light freezing drizzle"
  else if code = 57 then "Dense freezing drizzle"
  else if code = 61 then "Slight rain"
  else if code = 63 then "Moderate rain"
  else if code = 65 then "Heavy rain"
  else if code = 66 then "Light freezing rain"
  else if code = 67 then "Heavy freezing rain"
  else if code = 71 then "Slight snow fall"
  else if code = 73 then "Moderate snow fall"
  else if code = 75 then "Heavy snow fall"
  else if code = 77 then "Snow grains"
  else if code = 80 then "Slight rain showers"
  else if code = 81 then "Moderate rain showers"
  else if code = 82 then "Violent rain showers"
  else if code = 85 then "Slight snow showers"
  else if code = 86 then "Heavy snow showers"
  else if code = 95 then "Thunderstorm"
  else if code = 96 then "Thunderstorm with slight hail"
  else if code = 99 then "Thunderstorm with heavy hail"
  else "Unknown"

/-- `SAFETY_FACTORS` from `constants.py`, a Python set modelled as the list
of its literal's elements in source order. -/
def SAFETY_FACTORS : List String :=
  ["wave_height", "wind_speed", "precipitation", "weather_code"]

/-- Python `int(q)`: truncation toward zero. -/
def py_int (q : ℚ) : ℤ :=
  if q < 0 then -((-q).floor) else q.floor

/-- The scan loop of `_classify`: walk the `(upper, label, verdict)` entries
carrying the previous bound, returning the first entry whose bound exceeds
the value together with the position ratio inside that bucket.
`none` when the table is exhausted. -/
def classify_loop (v : ℚ) : ℚ → List Threshold → Option (String × Option Verdict × ℚ)
  | _, [] => none
  | prev, (upper, label, vd) :: rest =>
    match upper with
    | none =>
        some (label, vd, min 1 (max 0 ((v - prev) / 1)))
    | some u =>
        if v < u then
          let range := u - prev
          let frac := if range > 0 then min 1 (max 0 ((v - prev) / range)) else 0
          some (label, vd, frac)
        else classify_loop v u rest

/-- `_classify(value, thresholds)` from `swim_score.py`: returns
`(label, verdict, ratio)`. An absent value gives `("Unknown", None, 0.0)`;
an exhausted table falls back to the last entry with ratio 1 (Python would
raise on an empty table; the empty case is unreachable for the tables above,
which end in an infinite bound). -/
def classify (value : Option ℚ) (thresholds : List Threshold) :
    String × Option Verdict × ℚ :=
  match value with
  | none => ("Unknown", none, 0)
  | some v =>
    match classify_loop v 0 thresholds with
    | some r => r
    | none =>
      match thresholds.getLast? with
      | some (_, label, vd) => (label, vd, 1)
      | none => ("Unknown", none, 1)

/-- `_temp_bar` from `swim_score.py`. -/
def temp_bar (temp_c : ℚ) : ℤ :=
  if temp_c < 10 then 1
  else if temp_c < 15 then 2
  else if temp_c < 18 then 3
  else if temp_c < 20 then 4
  else if temp_c < 22 then 5
  else if temp_c < 24 then 6
  else if temp_c < 26 then 7
  else if temp_c < 28 then 8
  else if temp_c < 30 then 9
  else 10

/-- `_wave_bar` from `swim_score.py`. -/
def wave_bar (wave_m : ℚ) : ℤ :=
  if wave_m < mkRat 2 10 then 1
  else if wave_m < mkRat 4 10 then 2
  else if wave_m < mkRat 6 10 then 3
  else if wave_m < mkRat 8 10 then 4
  else if wave_m < mkRat 10 10 then 5
  else if wave_m < mkRat 15 10 then 6
  else if wave_m < mkRat 20 10 then 7
  else if wave_m < mkRat 25 10 then 8
  else if wave_m < mkRat 30 10 then 9
  else 10

/-- `_wind_bar` from `swim_score.py`: `min(10, max(1, int(wind_kmh / 5)))`. -/
def wind_bar (wind_kmh : ℚ) : ℤ :=
  min 10 (max 1 (py_int (wind_kmh / 5)))

/-- The `water_temp` factor built by `evaluate_conditions`. -/
def water_temp_factor (marine : Marine) : Factor :=
  let water_temp := marine.sea_surface_temp
  let c := classify water_temp WATER_TEMP_LABELS
  { value := water_temp
    unit := "C"
    label := c.1
    verdict := none
    bar := match water_temp with
           | some t => temp_bar t
           | none => 0 }

/-- The cold-water tips appended by `evaluate_conditions`. -/
def water_temp_tips (marine : Marine) : List String :=
  match marine.sea_surface_temp with
  | some t =>
      if t < 15 then ["Water is very cold. Consider a wetsuit."]
      else if t < 18 then ["Water is cold. A wetsuit may help."]
      else []
  | none => []

/-- The `wave_height` factor built by `evaluate_conditions`. -/
def wave_height_factor (marine : Marine) : Factor :=
  let wave_height := marine.wave_height
  let c := classify wave_height WAVE_HEIGHT_LABELS
  { value := wave_height
    unit := "m"
    label := c.1
    verdict := c.2.1
    bar := match wave_height with
           | some h => wave_bar h
           | none => 0 }

/-- The wave tips appended by `evaluate_conditions`. -/
def wave_height_tips (marine : Marine) : List String :=
  match marine.wave_height with
  | some h =>
      if h ≥ mkRat 25 10 then ["Dangerous waves. Red flag conditions."]
      else if h ≥ mkRat 15 10 then ["Rough waves. Experienced swimmers only."]
      else []
  | none => []

/-- The `wind_speed` factor built by `evaluate_conditions`. -/
def wind_speed_factor (weather : Weather) : Factor :=
  let wind_speed := weather.wind_speed
  let c := classify wind_speed WIND_SPEED_LABELS
  { value := wind_speed
    unit := "km/h"
    label := c.1
    verdict := c.2.1
    bar := match wind_speed with
           | some s => wind_bar s
           | none => 0 }

/-- The wind tip appended by `evaluate_conditions`. -/
def wind_speed_tips (weather : Weather) : List String :=
  match weather.wind_speed with
  | some s => if s ≥ 40 then ["Strong winds create dangerous rip currents."] else []
  | none => []

/-- The `uv_index` factor built by `evaluate_conditions`; its bar is
`min(10, int(uv_index))` inline, not a helper. -/
def uv_index_factor (weather : Weather) : Factor :=
  let uv_index := weather.uv_index
  let c := classify uv_index UV_INDEX_LABELS
  { value := uv_index
    unit := ""
    label := c.1
    verdict := none
    bar := match uv_index with
           | some u => min 10 (py_int u)
           | none => 0 }

/-- The UV tips appended by `evaluate_conditions`. -/
def uv_index_tips (weather : Weather) : List String :=
  match weather.uv_index with
  | some u =>
      if u ≥ 8 then ["Very high UV. Wear sunscreen SPF 50+ and reapply often."]
      else if u ≥ 6 then ["High UV. Wear sunscreen."]
      else if u ≥ 3 then ["Moderate UV. Sunscreen recommended."]
      else []
  | none => []

/-- The `precipitation` factor built by `evaluate_conditions`;
`weather.get("precipitation", 0) or 0` defaults an absent reading to 0. -/
def precipitation_factor (weather : Weather) : Factor :=
  let precip := weather.precipitation.getD 0
  let c := classify (some precip) PRECIP_LABELS
  { value := some precip
    unit := "mm"
    label := c.1
    verdict := c.2.1
    bar := min 10 (py_int precip) }

/-- The weather-code verdict of `evaluate_conditions`: dangerous set first,
then warning set, else YES. -/
def weather_code_verdict (code : ℕ) : Verdict :=
  if code ∈ DANGEROUS_WEATHER_CODES then Verdict.no
  else if code ∈ WARNING_WEATHER_CODES then Verdict.maybe
  else Verdict.yes

/-- The `weather_code` factor built by `evaluate_conditions`;
`weather.get("weather_code", 0) or 0` defaults an absent code to 0, and the
label is the WMO description. -/
def weather_code_factor (weather : Weather) : Factor :=
  let code := weather.weather_code.getD 0
  { value := some (code : ℚ)
    unit := ""
    label := wmo_description code
    verdict := some (weather_code_verdict code)
    bar := 0 }

/-- The dangerous-weather tip appended by `evaluate_conditions`. -/
def weather_code_tips (weather : Weather) : List String :=
  let code := weather.weather_code.getD 0
  if code ∈ DANGEROUS_WEATHER_CODES then
    ["Dangerous weather: " ++ wmo_description code ++ ". Beach closed."]
  else []

/-- The `factors` dict of `evaluate_conditions`, in insertion order. -/
def evaluate_factors (marine : Marine) (weather : Weather) : Factors :=
  { water_temp := water_temp_factor marine
    wave_height := wave_height_factor marine
    wind_speed := wind_speed_factor weather
    uv_index := uv_index_factor weather
    precipitation := precipitation_factor weather
    weather_code := weather_code_factor weather }

/-- The `tips` list of `evaluate_conditions`: appended in evaluation order
water temp, waves, wind, UV, weather. -/
def evaluate_tips (marine : Marine) (weather : Weather) : List String :=
  water_temp_tips marine ++ wave_height_tips marine ++ wind_speed_tips weather
    ++ uv_index_tips weather ++ weather_code_tips weather

/-- The verdicts of the four members of `SAFETY_FACTORS`, in the modelled
set order. -/
def safety_verdicts (factors : Factors) : List (Option Verdict) :=
  [factors.wave_height.verdict, factors.wind_speed.verdict,
   factors.precipitation.verdict, factors.weather_code.verdict]

/-- `_compute_verdict` from `swim_score.py`: count NO and MAYBE among the
safety factors, then apply the precedence chain. -/
def compute_verdict (factors : Factors) : Verdict :=
  let vs := safety_verdicts factors
  let no_count := vs.countP (fun v => v = some Verdict.no)
  let maybe_count := vs.countP (fun v => v = some Verdict.maybe)
  if no_count ≥ 1 then Verdict.no
  else if maybe_count ≥ 2 then Verdict.no
  else if maybe_count = 1 then Verdict.maybe
  else Verdict.yes

/-- `factors.get(key, {})` of `_generate_summary`, restricted to the six
keys present in the dict. -/
def get_factor (factors : Factors) (key : String) : Option Factor :=
  if key = "water_temp" then some factors.water_temp
  else if key = "wave_height" then some factors.wave_height
  else if key = "wind_speed" then some factors.wind_speed
  else if key = "uv_index" then some factors.uv_index
  else if key = "precipitation" then some factors.precipitation
  else if key = "weather_code" then some factors.weather_code
  else none

/-- `_factor_name` from `swim_score.py`. -/
def factor_name (key : String) : String :=
  if key = "wave_height" then "waves"
  else if key = "wind_speed" then "wind"
  else if key = "precipitation" then "rain"
  else if key = "weather_code" then "weather"
  else key

/-- The `issues` list of the MAYBE branch of `_generate_summary`. -/
def summary_issues (factors : Factors) : List String :=
  SAFETY_FACTORS.filterMap (fun key =>
    match get_factor factors key with
    | some f =>
        if f.verdict = some Verdict.maybe then
          some (f.label.toLower ++ " " ++ factor_name key)
        else none
    | none => none)

/-- The `dangers` list of the NO branch of `_generate_summary`. -/
def summary_dangers (factors : Factors) : List String :=
  SAFETY_FACTORS.filterMap (fun key =>
    match get_factor factors key with
    | some f =>
        if f.verdict = some Verdict.no ∨ f.verdict = some Verdict.maybe then
          some (f.label.toLower ++ " " ++ factor_name key)
        else none
    | none => none)

/-- `_generate_summary` from `swim_score.py`. -/
def generate_summary (verdict : Verdict) (factors : Factors) : String :=
  if verdict = Verdict.yes then "Beach is open. Go swim!"
  else if verdict = Verdict.maybe then
    let issues := summary_issues factors
    if issues ≠ [] then
      "Swim with caution: " ++ String.intercalate ", " issues ++ "."
    else "Conditions are mixed. Swim with caution."
  else
    let dangers := summary_dangers factors
    if dangers ≠ [] then
      "Beach closed: " ++ String.intercalate ", " (dangers.take 2) ++ "."
    else "Not safe to swim."

/-- `evaluate_conditions` from `swim_score.py`. -/
def evaluate_conditions (marine : Marine) (weather : Weather) : EvalResult :=
  let factors := evaluate_factors marine weather
  let verdict := compute_verdict factors
  { verdict := verdict
    factors := factors
    tips := evaluate_tips marine weather
    summary := generate_summary verdict factors }

/-- A marine reading with every field absent. -/
def empty_marine : Marine := { sea_surface_temp := none, wave_height := none }

/-- A weather reading with every field absent. -/
def empty_weather : Weather :=
  { wind_speed := none, uv_index := none, precipitation := none, weather_code := none }

/-- `maybe_count vs`: how many safety verdicts equal MAYBE. -/
def maybe_count (vs : List (Option Verdict)) : ℕ :=
  vs.countP (fun v => v = some Verdict.maybe)

/-- The aggregation precedence as the spec states it: any NO wins, then two
or more MAYBEs escalate to NO, then a single MAYBE, else YES. -/
def verdict_agg (vs : List (Option Verdict)) : Verdict :=
  if some Verdict.no ∈ vs then Verdict.no
  else if 2 ≤ maybe_count vs then Verdict.no
  else if maybe_count vs = 1 then Verdict.maybe
  else Verdict.yes

/-- `bound_exceeds v u`: the upper bound `u` strictly exceeds `v`
(an infinite bound exceeds everything). -/
def bound_exceeds (v : ℚ) : Option ℚ → Bool
  | none => true
  | some u => decide (v < u)

/-- The MAYBE-summary items as the spec words them: for every safety factor
whose verdict is MAYBE, its lowercased label followed by the mapped factor
name, in the modelled safety-factor order. -/
def spec_maybe_items (f : Factors) : List String :=
  (if f.wave_height.verdict = some Verdict.maybe
    then [f.wave_height.label.toLower ++ " waves"] else [])
  ++ (if f.wind_speed.verdict = some Verdict.maybe
    then [f.wind_speed.label.toLower ++ " wind"] else [])
  ++ (if f.precipitation.verdict = some Verdict.maybe
    then [f.precipitation.label.toLower ++ " rain"] else [])
  ++ (if f.weather_code.verdict = some Verdict.maybe
    then [f.weather_code.label.toLower ++ " weather"] else [])

/-- The NO-summary items as the spec words them: for every safety factor
whose verdict is NO or MAYBE, its lowercased label followed by the mapped
factor name, in the modelled safety-factor order. -/
def spec_danger_items (f : Factors) : List String :=
  (if f.wave_height.verdict = some Verdict.no ∨
      f.wave_height.verdict = some Verdict.maybe
    then [f.wave_height.label.toLower ++ " waves"] else [])
  ++ (if f.wind_speed.verdict = some Verdict.no ∨
      f.wind_speed.verdict = some Verdict.maybe
    then [f.wind_speed.label.toLower ++ " wind"] else [])
  ++ (if f.precipitation.verdict = some Verdict.no ∨
      f.precipitation.verdict = some Verdict.maybe
    then [f.precipitation.label.toLower ++ " rain"] else [])
  ++ (if f.weather_code.verdict = some Verdict.no ∨
      f.weather_code.verdict = some Verdict.maybe
    then [f.weather_code.label.toLower ++ " weather"] else [])

/-- The summary sentence as the spec words it, as a function of the overall
verdict and the classified factors. -/
def spec_summary (verdict : Verdict) (f : Factors) : String :=
  match verdict with
  | Verdict.yes => "Beach is open. Go swim!"
  | Verdict.maybe =>
      if spec_maybe_items f = [] then "Conditions are mixed. Swim with caution."
      else "Swim with caution: " ++ String.intercalate ", " (spec_maybe_items f) ++ "."
  | Verdict.no =>
      if spec_danger_items f = [] then "Not safe to swim."
      else "Beach closed: " ++
        String.intercalate ", " ((spec_danger_items f).take 2) ++ "."

theorem compute_verdict_eq_agg (f : Factors) :
    compute_verdict f = verdict_agg (safety_verdicts f) := by
  have h : ∀ a b c d : Option Verdict,
      (let vs := [a, b, c, d]
       let no_count := vs.countP (fun v => v = some Verdict.no)
       let mc := vs.countP (fun v => v = some Verdict.maybe)
       if no_count ≥ 1 then Verdict.no
       else if mc ≥ 2 then Verdict.no
       else if mc = 1 then Verdict.maybe
       else Verdict.yes) = verdict_agg [a, b, c, d] := by decide
  exact h f.wave_height.verdict f.wind_speed.verdict
    f.precipitation.verdict f.weather_code.verdict

/-- C1: the overall verdict is computed from the four safety factors only,
with precedence: any NO gives NO, two or more MAYBEs give NO, exactly one
MAYBE gives MAYBE, else YES; wave 1.6 with wind 35 (two MAYBEs) gives NO,
and wave 1.6 with every other safety factor at YES gives MAYBE. -/
theorem C1_verdict_aggregation :
    (∀ (marine : Marine) (weather : Weather),
      (evaluate_conditions marine weather).verdict =
        verdict_agg (safety_verdicts (evaluate_conditions marine weather).factors)) ∧
    (evaluate_conditions { sea_surface_temp := none, wave_height := some (mkRat 16 10) }
        { wind_speed := some 35, uv_index := none, precipitation := none,
          weather_code := none }).verdict = Verdict.no ∧
    (evaluate_conditions { sea_surface_temp := none, wave_height := some (mkRat 16 10) }
        { wind_speed := some 5, uv_index := none, precipitation := none,
          weather_code := none }).verdict = Verdict.maybe := by
  refine ⟨fun m w => compute_verdict_eq_agg (evaluate_factors m w), ?_, ?_⟩ <;> decide

theorem classify_loop_find (v : ℚ) (ts : List Threshold) (e : Threshold) :
    ∀ prev : ℚ, ts.find? (fun t => bound_exceeds v t.1) = some e →
      ∃ r : ℚ, classify_loop v prev ts = some (e.2.1, e.2.2, r) := by
  induction ts with
  | nil => intro prev h; simp at h
  | cons t rest ih =>
    intro prev h
    obtain ⟨u, label, vd⟩ := t
    by_cases hb : bound_exceeds v u = true
    · simp only [List.find?, hb] at h
      cases h
      cases u with
      | none => exact ⟨_, rfl⟩
      | some u' =>
          have hv : v < u' := of_decide_eq_true hb
          exact ⟨if u' - prev > 0 then min 1 (max 0 ((v - prev) / (u' - prev))) else 0,
            by simp only [classify_loop, if_pos hv]⟩
    · have hb' : bound_exceeds v u = false := by
        cases hbe : bound_exceeds v u
        · rfl
        · exact absurd hbe hb
      simp only [List.find?, hb'] at h
      cases u with
      | none => simp [bound_exceeds] at hb'
      | some u' =>
          have hv : ¬ v < u' := by
            intro hlt
            rw [show bound_exceeds v (some u') = decide (v < u') from rfl,
              decide_eq_true hlt] at hb'
            simp at hb'
          simpa only [classify_loop, if_neg hv] using ih u' h

theorem classify_find (v : ℚ) (ts : List Threshold) (e : Threshold)
    (h : ts.find? (fun t => bound_exceeds v t.1) = some e) :
    (classify (some v) ts).1 = e.2.1 ∧ (classify (some v) ts).2.1 = e.2.2 := by
  obtain ⟨r, hr⟩ := classify_loop_find v ts e 0 h
  simp [classify, hr]

/-- C2: for a present value, classification returns the label and verdict of
the first table entry whose upper bound strictly exceeds the value; a wave
height of exactly 1.5 m classifies as "Rough" with verdict MAYBE. -/
theorem C2_strict_boundary :
    (∀ (v : ℚ) (ts : List Threshold) (e : Threshold),
      ts.find? (fun t => bound_exceeds v t.1) = some e →
      (classify (some v) ts).1 = e.2.1 ∧ (classify (some v) ts).2.1 = e.2.2) ∧
    (classify (some (mkRat 15 10)) WAVE_HEIGHT_LABELS).1 = "Rough" ∧
    (classify (some (mkRat 15 10)) WAVE_HEIGHT_LABELS).2.1 = some Verdict.maybe := by
  refine ⟨classify_find, ?_, ?_⟩ <;> decide

theorem C2_strict_boundary_witness :
    WAVE_HEIGHT_LABELS.find? (fun t => bound_exceeds (mkRat 15 10) t.1) =
      some (some (mkRat 20 10), "Rough", some Verdict.maybe) ∧
    (classify (some (mkRat 15 10)) WAVE_HEIGHT_LABELS).1 = "Rough" ∧
    (classify (some (mkRat 15 10)) WAVE_HEIGHT_LABELS).2.1 = some Verdict.maybe :=
  ⟨by decide,
   (C2_strict_boundary.1 (mkRat 15 10) WAVE_HEIGHT_LABELS
      (some (mkRat 20 10), "Rough", some Verdict.maybe) (by decide)).1,
   (C2_strict_boundary.1 (mkRat 15 10) WAVE_HEIGHT_LABELS
      (some (mkRat 20 10), "Rough", some Verdict.maybe) (by decide)).2⟩

theorem verdict_agg_of_mem_no {vs : List (Option Verdict)}
    (h : some Verdict.no ∈ vs) : verdict_agg vs = Verdict.no := by
  simp [verdict_agg, h]

/-- C3: the weather-code factor is classified by set membership, dangerous
set first: a dangerous code gives NO, else a warning code gives MAYBE, else
YES; code 95 forces the weather factor and the overall verdict to NO
regardless of all other inputs, code 61 gives MAYBE, code 1 gives YES. -/
theorem C3_weather_code_classification :
    (∀ (marine : Marine) (weather : Weather) (c : ℕ),
      weather.weather_code = some c →
      (evaluate_conditions marine weather).factors.weather_code.verdict =
        some (if c ∈ DANGEROUS_WEATHER_CODES then Verdict.no
              else if c ∈ WARNING_WEATHER_CODES then Verdict.maybe
              else Verdict.yes)) ∧
    (∀ (marine : Marine) (weather : Weather),
      weather.weather_code = some 95 →
      (evaluate_conditions marine weather).factors.weather_code.verdict =
          some Verdict.no ∧
      (evaluate_conditions marine weather).verdict = Verdict.no) ∧
    (∀ (marine : Marine) (weather : Weather),
      weather.weather_code = some 61 →
      (evaluate_conditions marine weather).factors.weather_code.verdict =
        some Verdict.maybe) ∧
    (∀ (marine : Marine) (weather : Weather),
      weather.weather_code = some 1 →
      (evaluate_conditions marine weather).factors.weather_code.verdict =
        some Verdict.yes) := by
  have hgen : ∀ (marine : Marine) (weather : Weather) (c : ℕ),
      weather.weather_code = some c →
      (evaluate_conditions marine weather).factors.weather_code.verdict =
        some (if c ∈ DANGEROUS_WEATHER_CODES then Verdict.no
              else if c ∈ WARNING_WEATHER_CODES then Verdict.maybe
              else Verdict.yes) := by
    intro m w c h
    show (weather_code_factor w).verdict = _
    simp [weather_code_factor, weather_code_verdict, h]
  refine ⟨hgen, ?_, ?_, ?_⟩
  · intro m w h
    have hfac := hgen m w 95 h
    simp only [DANGEROUS_WEATHER_CODES, List.mem_cons, List.not_mem_nil,
      reduceCtorEq, or_false, if_pos, Nat.reduceEqDiff] at hfac
    refine ⟨hfac, ?_⟩
    rw [show (evaluate_conditions m w).verdict =
      verdict_agg (safety_verdicts (evaluate_conditions m w).factors) from
      compute_verdict_eq_agg (evaluate_factors m w)]
    exact verdict_agg_of_mem_no (by simp [safety_verdicts, hfac])
  · intro m w h
    have hfac := hgen m w 61 h
    simpa [DANGEROUS_WEATHER_CODES, WARNING_WEATHER_CODES] using hfac
  · intro m w h
    have hfac := hgen m w 1 h
    simpa [DANGEROUS_WEATHER_CODES, WARNING_WEATHER_CODES] using hfac

theorem C3_weather_code_classification_witness :
    ((Weather.mk none none none (some 95)).weather_code = some 95 ∧
      (evaluate_conditions empty_marine
        (Weather.mk none none none (some 95))).verdict = Verdict.no) ∧
    ((Weather.mk none none none (some 61)).weather_code = some 61 ∧
      (evaluate_conditions empty_marine
        (Weather.mk none none none (some 61))).factors.weather_code.verdict =
          some Verdict.maybe) ∧
    ((Weather.mk none none none (some 1)).weather_code = some 1 ∧
      (evaluate_conditions empty_marine
        (Weather.mk none none none (some 1))).factors.weather_code.verdict =
          some Verdict.yes) :=
  ⟨⟨rfl, (C3_weather_code_classification.2.1 empty_marine
      (Weather.mk none none none (some 95)) rfl).2⟩,
   ⟨rfl, C3_weather_code_classification.2.2.1 empty_marine
      (Weather.mk none none none (some 61)) rfl⟩,
   ⟨rfl, C3_weather_code_classification.2.2.2 empty_marine
      (Weather.mk none none none (some 1)) rfl⟩⟩

theorem C4_absence_unknown_cex :
    (evaluate_conditions empty_marine empty_weather).factors.precipitation.value =
        some 0 ∧
    ¬((evaluate_conditions empty_marine
        empty_weather).factors.precipitation.label = "Unknown" ∧
      (evaluate_conditions empty_marine
        empty_weather).factors.precipitation.verdict = none) := by
  refine ⟨by decide, ?_⟩
  intro ⟨hl, _⟩
  revert hl
  decide

/-- C4 (amended): an absent measurement for the four optionally-classified
factors (water temp, wave height, wind speed, UV) yields label "Unknown" and
verdict none; absent precipitation and weather code instead default to 0 and
classify to "None"/YES and "Clear sky"/YES; in all six cases an absent
measurement never by itself moves the overall verdict away from YES. -/
theorem C4_absence_neutrality :
    (∀ (marine : Marine) (weather : Weather),
      (marine.sea_surface_temp = none →
        (evaluate_conditions marine weather).factors.water_temp.label = "Unknown" ∧
        (evaluate_conditions marine weather).factors.water_temp.verdict = none) ∧
      (marine.wave_height = none →
        (evaluate_conditions marine weather).factors.wave_height.label = "Unknown" ∧
        (evaluate_conditions marine weather).factors.wave_height.verdict = none) ∧
      (weather.wind_speed = none →
        (evaluate_conditions marine weather).factors.wind_speed.label = "Unknown" ∧
        (evaluate_conditions marine weather).factors.wind_speed.verdict = none) ∧
      (weather.uv_index = none →
        (evaluate_conditions marine weather).factors.uv_index.label = "Unknown" ∧
        (evaluate_conditions marine weather).factors.uv_index.verdict = none) ∧
      (weather.precipitation = none →
        (evaluate_conditions marine weather).factors.precipitation.label = "None" ∧
        (evaluate_conditions marine
          weather).factors.precipitation.verdict = some Verdict.yes) ∧
      (weather.weather_code = none →
        (evaluate_conditions marine
          weather).factors.weather_code.label = "Clear sky" ∧
        (evaluate_conditions marine
          weather).factors.weather_code.verdict = some Verdict.yes)) ∧
    (evaluate_conditions empty_marine empty_weather).verdict = Verdict.yes := by
  refine ⟨fun m w => ⟨?_, ?_, ?_, ?_, ?_, ?_⟩, by decide⟩
  · intro h
    show (water_temp_factor m).label = "Unknown" ∧ (water_temp_factor m).verdict = none
    rw [water_temp_factor, h]
    exact ⟨rfl, rfl⟩
  · intro h
    show (wave_height_factor m).label = "Unknown" ∧ (wave_height_factor m).verdict = none
    rw [wave_height_factor, h]
    exact ⟨rfl, rfl⟩
  · intro h
    show (wind_speed_factor w).label = "Unknown" ∧ (wind_speed_factor w).verdict = none
    rw [wind_speed_factor, h]
    exact ⟨rfl, rfl⟩
  · intro h
    show (uv_index_factor w).label = "Unknown" ∧ (uv_index_factor w).verdict = none
    rw [uv_index_factor, h]
    exact ⟨rfl, rfl⟩
  · intro h
    show (precipitation_factor w).label = "None" ∧
      (precipitation_factor w).verdict = some Verdict.yes
    rw [precipitation_factor, h]
    exact ⟨by decide, by decide⟩
  · intro h
    show (weather_code_factor w).label = "Clear sky" ∧
      (weather_code_factor w).verdict = some Verdict.yes
    rw [weather_code_factor, h]
    exact ⟨by decide, by decide⟩

theorem C4_absence_neutrality_witness :
    (evaluate_conditions empty_marine empty_weather).factors.water_temp.label =
        "Unknown" ∧
    (evaluate_conditions empty_marine empty_weather).factors.wave_height.verdict =
        none ∧
    (evaluate_conditions empty_marine empty_weather).factors.wind_speed.verdict =
        none ∧
    (evaluate_conditions empty_marine empty_weather).factors.uv_index.label =
        "Unknown" ∧
    (evaluate_conditions empty_marine empty_weather).factors.precipitation.label =
        "None" ∧
    (evaluate_conditions empty_marine empty_weather).factors.weather_code.label =
        "Clear sky" ∧
    (evaluate_conditions empty_marine empty_weather).verdict = Verdict.yes :=
  ⟨((C4_absence_neutrality.1 empty_marine empty_weather).1 rfl).1,
   ((C4_absence_neutrality.1 empty_marine empty_weather).2.1 rfl).2,
   ((C4_absence_neutrality.1 empty_marine empty_weather).2.2.1 rfl).2,
   ((C4_absence_neutrality.1 empty_marine empty_weather).2.2.2.1 rfl).1,
   ((C4_absence_neutrality.1 empty_marine empty_weather).2.2.2.2.1 rfl).1,
   ((C4_absence_neutrality.1 empty_marine empty_weather).2.2.2.2.2 rfl).1,
   C4_absence_neutrality.2⟩

theorem verdict_agg_all_yes {vs : List (Option Verdict)}
    (h : ∀ v ∈ vs, v = some Verdict.yes) : verdict_agg vs = Verdict.yes := by
  have h1 : some Verdict.no ∉ vs := fun hm => by
    have := h _ hm
    simp at this
  have h2 : maybe_count vs = 0 := by
    rw [maybe_count, List.countP_eq_zero]
    intro v hv
    rw [h v hv]
    decide
  simp [verdict_agg, h1, h2]

/-- C5: the water-temperature and UV factors never carry a safety verdict
and never participate in aggregation: whenever all four safety factors are
YES the overall verdict is YES, for every water-temperature and UV reading,
including temp 8 and UV 11. -/
theorem C5_informational_isolation :
    (∀ (marine : Marine) (weather : Weather),
      (evaluate_conditions marine weather).factors.water_temp.verdict = none ∧
      (evaluate_conditions marine weather).factors.uv_index.verdict = none) ∧
    (∀ (marine : Marine) (weather : Weather),
      (∀ v ∈ safety_verdicts (evaluate_conditions marine weather).factors,
        v = some Verdict.yes) →
      (evaluate_conditions marine weather).verdict = Verdict.yes) ∧
    (evaluate_conditions { sea_surface_temp := some 8, wave_height := some (mkRat 1 10) }
        { wind_speed := some 5, uv_index := some 11, precipitation := some 0,
          weather_code := some 0 }).verdict = Verdict.yes := by
  refine ⟨fun m w => ⟨rfl, rfl⟩, fun m w h => ?_, by decide⟩
  rw [show (evaluate_conditions m w).verdict =
    verdict_agg (safety_verdicts (evaluate_conditions m w).factors) from
    compute_verdict_eq_agg (evaluate_factors m w)]
  exact verdict_agg_all_yes h

theorem C5_informational_isolation_witness :
    (∀ v ∈ safety_verdicts (evaluate_conditions
        { sea_surface_temp := some 8, wave_height := some (mkRat 1 10) }
        { wind_speed := some 5, uv_index := some 11, precipitation := some 0,
          weather_code := some 0 }).factors, v = some Verdict.yes) ∧
    (evaluate_conditions { sea_surface_temp := some 8, wave_height := some (mkRat 1 10) }
        { wind_speed := some 5, uv_index := some 11, precipitation := some 0,
          weather_code := some 0 }).verdict = Verdict.yes :=
  ⟨by decide,
   C5_informational_isolation.2.1
     { sea_surface_temp := some 8, wave_height := some (mkRat 1 10) }
     { wind_speed := some 5, uv_index := some 11, precipitation := some 0,
       weather_code := some 0 } (by decide)⟩

theorem summary_issues_eq (f : Factors) : summary_issues f = spec_maybe_items f := by
  simp only [summary_issues, SAFETY_FACTORS, spec_maybe_items]
  by_cases h1 : f.wave_height.verdict = some Verdict.maybe <;>
  by_cases h2 : f.wind_speed.verdict = some Verdict.maybe <;>
  by_cases h3 : f.precipitation.verdict = some Verdict.maybe <;>
  by_cases h4 : f.weather_code.verdict = some Verdict.maybe <;>
    simp [List.filterMap_cons, get_factor, factor_name, h1, h2, h3, h4,
      String.append_assoc]

theorem summary_dangers_eq (f : Factors) : summary_dangers f = spec_danger_items f := by
  simp only [summary_dangers, SAFETY_FACTORS, spec_danger_items]
  by_cases h1 : f.wave_height.verdict = some Verdict.no ∨
      f.wave_height.verdict = some Verdict.maybe <;>
  by_cases h2 : f.wind_speed.verdict = some Verdict.no ∨
      f.wind_speed.verdict = some Verdict.maybe <;>
  by_cases h3 : f.precipitation.verdict = some Verdict.no ∨
      f.precipitation.verdict = some Verdict.maybe <;>
  by_cases h4 : f.weather_code.verdict = some Verdict.no ∨
      f.weather_code.verdict = some Verdict.maybe <;>
    simp [List.filterMap_cons, get_factor, factor_name, h1, h2, h3, h4,
      String.append_assoc]

theorem generate_summary_eq_spec (v : Verdict) (f : Factors) :
    generate_summary v f = spec_summary v f := by
  cases v
  · rfl
  · by_cases hi : spec_maybe_items f = [] <;>
      simp [generate_summary, spec_summary, summary_issues_eq f, hi]
  · by_cases hd : spec_danger_items f = [] <;>
      simp [generate_summary, spec_summary, summary_dangers_eq f, hd]

/-- C6: the summary is exactly "Beach is open. Go swim!" for YES; for MAYBE
it is "Swim with caution: " followed by the comma-joined lowercased-label
plus mapped-name items of the safety factors at MAYBE (fallback
"Conditions are mixed. Swim with caution." when that list is empty); for NO
it is "Beach closed: " followed by the first two such items over the safety
factors at NO or MAYBE (fallback "Not safe to swim." when empty). -/
theorem C6_summary_sentence :
    ∀ (marine : Marine) (weather : Weather),
      (evaluate_conditions marine weather).summary =
        spec_summary (evaluate_conditions marine weather).verdict
          (evaluate_conditions marine weather).factors :=
  fun m w => generate_summary_eq_spec (compute_verdict (evaluate_factors m w))
    (evaluate_factors m w)

/-- C7: tips are generated exactly at the spec thresholds (water temp <15
else <18; waves ≥2.5 else ≥1.5; wind ≥40; UV ≥8 else ≥6 else ≥3; weather
code in the dangerous set) and appended in the fixed order water temp,
waves, wind, UV, weather, with no deduplication or sorting; on a concrete
input firing every rule the list comes out in exactly that order. -/
theorem C7_tips_thresholds_and_order :
    (∀ (marine : Marine) (weather : Weather),
      (evaluate_conditions marine weather).tips =
        (match marine.sea_surface_temp with
         | some t =>
             if t < 15 then ["Water is very cold. Consider a wetsuit."]
             else if t < 18 then ["Water is cold. A wetsuit may help."]
             else []
         | none => []) ++
        (match marine.wave_height with
         | some h =>
             if h ≥ mkRat 25 10 then ["Dangerous waves. Red flag conditions."]
             else if h ≥ mkRat 15 10 then ["Rough waves. Experienced swimmers only."]
             else []
         | none => []) ++
        (match weather.wind_speed with
         | some s => if s ≥ 40 then ["Strong winds create dangerous rip currents."] else []
         | none => []) ++
        (match weather.uv_index with
         | some u =>
             if u ≥ 8 then ["Very high UV. Wear sunscreen SPF 50+ and reapply often."]
             else if u ≥ 6 then ["High UV. Wear sunscreen."]
             else if u ≥ 3 then ["Moderate UV. Sunscreen recommended."]
             else []
         | none => []) ++
        (if weather.weather_code.getD 0 ∈ DANGEROUS_WEATHER_CODES then
          ["Dangerous weather: " ++ wmo_description (weather.weather_code.getD 0)
            ++ ". Beach closed."]
         else [])) ∧
    (evaluate_conditions { sea_surface_temp := some 14, wave_height := some (mkRat 16 10) }
        { wind_speed := some 45, uv_index := some 9, precipitation := some 0,
          weather_code := some 95 }).tips =
      ["Water is very cold. Consider a wetsuit.",
       "Rough waves. Experienced swimmers only.",
       "Strong winds create dangerous rip currents.",
       "Very high UV. Wear sunscreen SPF 50+ and reapply often.",
       "Dangerous weather: Thunderstorm. Beach closed."] := by
  refine ⟨fun m w => ?_, by decide⟩
  show evaluate_tips m w = _
  rw [evaluate_tips, water_temp_tips, wave_height_tips, wind_speed_tips,
    uv_index_tips, weather_code_tips]

theorem swim_caution_ne_mixed (s : String) :
    "Swim with caution: " ++ s ++ "." ≠ "Conditions are mixed. Swim with caution." := by
  intro h
  have h2 := congrArg (fun x => x.data.head?) h
  rw [String.append_assoc] at h2
  simp only [String.data_append] at h2
  simp at h2

theorem mem_maybe_of_agg_maybe {vs : List (Option Verdict)}
    (h : verdict_agg vs = Verdict.maybe) : some Verdict.maybe ∈ vs := by
  unfold verdict_agg at h
  by_cases h1 : some Verdict.no ∈ vs
  · simp [h1] at h
  by_cases h2 : 2 ≤ maybe_count vs
  · simp [h1, h2] at h
  by_cases h3 : maybe_count vs = 1
  · have hp : 0 < vs.countP (fun v => v = some Verdict.maybe) := by
      rw [show vs.countP (fun v => v = some Verdict.maybe) = maybe_count vs from rfl, h3]
      exact Nat.one_pos
    obtain ⟨a, ha, hpa⟩ := List.countP_pos_iff.mp hp
    have : a = some Verdict.maybe := of_decide_eq_true hpa
    rwa [this] at ha
  · simp [h1, h2, h3] at h

theorem spec_maybe_items_ne_nil {f : Factors}
    (h : some Verdict.maybe ∈ safety_verdicts f) : spec_maybe_items f ≠ [] := by
  simp only [safety_verdicts, List.mem_cons, List.not_mem_nil, or_false] at h
  unfold spec_maybe_items
  rcases h with h | h | h | h <;> rw [← h] <;> simp

/-- C8: whenever the overall verdict is MAYBE, some safety factor's verdict
is MAYBE at summary time, the MAYBE issue list is nonempty, the summary is
the "Swim with caution: ..." sentence built from it, and the fallback text
"Conditions are mixed. Swim with caution." is never produced. -/
theorem C8_maybe_fallback_unreachable :
    ∀ (marine : Marine) (weather : Weather),
      (evaluate_conditions marine weather).verdict = Verdict.maybe →
      some Verdict.maybe ∈
          safety_verdicts (evaluate_conditions marine weather).factors ∧
      spec_maybe_items (evaluate_conditions marine weather).factors ≠ [] ∧
      (evaluate_conditions marine weather).summary =
        "Swim with caution: " ++ String.intercalate ", "
          (spec_maybe_items (evaluate_conditions marine weather).factors) ++ "." ∧
      (evaluate_conditions marine weather).summary ≠
        "Conditions are mixed. Swim with caution." := by
  intro m w h
  have hagg : verdict_agg (safety_verdicts (evaluate_factors m w)) = Verdict.maybe := by
    rw [← compute_verdict_eq_agg (evaluate_factors m w)]
    exact h
  have hmem : some Verdict.maybe ∈ safety_verdicts (evaluate_factors m w) :=
    mem_maybe_of_agg_maybe hagg
  have hne : spec_maybe_items (evaluate_factors m w) ≠ [] :=
    spec_maybe_items_ne_nil hmem
  have hsum : (evaluate_conditions m w).summary =
      "Swim with caution: " ++ String.intercalate ", "
        (spec_maybe_items (evaluate_factors m w)) ++ "." := by
    show generate_summary (compute_verdict (evaluate_factors m w))
        (evaluate_factors m w) = _
    rw [show compute_verdict (evaluate_factors m w) = Verdict.maybe from h,
      generate_summary_eq_spec]
    simp [spec_summary, hne]
  exact ⟨hmem, hne, hsum, by rw [hsum]; exact swim_caution_ne_mixed _⟩

theorem C8_maybe_fallback_unreachable_witness :
    (evaluate_conditions empty_marine
        (Weather.mk (some 25) none none none)).verdict = Verdict.maybe ∧
    (evaluate_conditions empty_marine
        (Weather.mk (some 25) none none none)).summary =
      "Swim with caution: " ++ String.intercalate ", "
        (spec_maybe_items (evaluate_conditions empty_marine
          (Weather.mk (some 25) none none none)).factors) ++ "." :=
  ⟨by decide,
   (C8_maybe_fallback_unreachable empty_marine
      (Weather.mk (some 25) none none none) (by decide)).2.2.1⟩

/-- C9 fails on the code: for a present negative UV index or precipitation
value the bar is `min(10, int(value))` with no lower clamp, so it falls
below 0, contradicting the 0..10 range; here UV -3 gives bar -3 and
precipitation -2 gives bar -2. -/
theorem C9_bar_range_violation :
    (evaluate_conditions empty_marine
        (Weather.mk none (some (-3)) (some (-2)) none)).factors.uv_index.bar = -3 ∧
    (evaluate_conditions empty_marine
        (Weather.mk none (some (-3)) (some (-2)) none)).factors.uv_index.bar < 0 ∧
    (evaluate_conditions empty_marine
        (Weather.mk none (some (-3)) (some (-2)) none)).factors.precipitation.bar = -2 ∧
    (evaluate_conditions empty_marine
        (Weather.mk none (some (-3)) (some (-2)) none)).factors.precipitation.bar < 0 := by
  refine ⟨?_, ?_, ?_, ?_⟩ <;> decide

/-- C10: with both readings entirely absent, the verdict is YES with summary
"Beach is open. Go swim!": precipitation and weather code default to 0 and
classify to "None"/YES and "Clear sky"/YES, while absent wave height and
wind speed get label "Unknown" and verdict none. -/
theorem C10_empty_inputs_yes :
    (evaluate_conditions empty_marine empty_weather).verdict = Verdict.yes ∧
    (evaluate_conditions empty_marine empty_weather).summary =
        "Beach is open. Go swim!" ∧
    (evaluate_conditions empty_marine empty_weather).factors.precipitation.label =
        "None" ∧
    (evaluate_conditions empty_marine empty_weather).factors.precipitation.verdict =
        some Verdict.yes ∧
    (evaluate_conditions empty_marine empty_weather).factors.weather_code.label =
        "Clear sky" ∧
    (evaluate_conditions empty_marine empty_weather).factors.weather_code.verdict =
        some Verdict.yes ∧
    (evaluate_conditions empty_marine empty_weather).factors.wave_height.label =
        "Unknown" ∧
    (evaluate_conditions empty_marine empty_weather).factors.wave_height.verdict =
        none ∧
    (evaluate_conditions empty_marine empty_weather).factors.wind_speed.label =
        "Unknown" ∧
    (evaluate_conditions empty_marine empty_weather).factors.wind_speed.verdict =
        none := by
  refine ⟨?_, ?_, ?_, ?_, ?_, ?_, ?_, ?_, ?_, ?_⟩ <;> decide
